import Mathlib

/-
  Verification of the HexaProof validation engine and hexagonal core types
  of the TheHive (Hexagonal Chain) repository.

  Shallow embedding conventions:
  * common.Hash values are identifiers compared for equality with the zero
    hash; they are modeled as Nat, with 0 standing for the empty hash.
  * byte slices are modeled as List Nat; addresses as List Nat.
  * uint64 and uint8 fields are modeled as Nat (no reachable arithmetic in
    the embedded code over- or underflows: the only subtraction, in
    validateParents, is guarded by a prior comparison).
  * int64 cube coordinates are modeled as Int, following the specification
    of the coordinate module, which declares overflow at extreme
    magnitudes a caller contract.
  * time.Now() is passed explicitly as a parameter named now.
  * the keccak/RLP header hash and the sha256 byte-stream hash are opaque
    external services; they are passed as function parameters.
  * Go functions returning error are modeled as Except HexError Unit.
-/

namespace HexChain

/-- common.Hash, modeled as an identifier; 0 is the zero (empty) hash. -/
abbrev Hash := Nat

/-- All error outcomes produced by the embedded validation functions;
each constructor corresponds to one error return in the source. -/
inductive HexError where
  | tooManyNeighborsStruct (n : Nat)
  | neighborCountMismatch (declared actual : Nat)
  | genesisNonzeroNeighbors
  | nonGenesisZeroNeighbors
  | unknownParent (h : Hash)
  | invalidParentNumber (p c : Nat)
  | parentTooOld (d : Nat)
  | selfReference
  | circularReference
  | tooManyNeighborsConfig (n max : Nat)
  | insufficientNeighbors (n min : Nat)
  | timestampNotAfterParent (t p : Nat)
  | timestampTooFarFuture (t limit : Nat)
  | missingProofTimestamp
  | proofTimestampBeforeBlock
  | proofUnknownParent (h : Hash)
  | insufficientSignatures (got need : Nat)
  | parentStateUnavailable (h : Hash)
  | missingParentStates
  | parentNotNeighbor
deriving DecidableEq, Repr

instance : DecidableEq (Except HexError Unit) := fun a b =>
  match a, b with
  | Except.ok (), Except.ok () => Decidable.isTrue rfl
  | Except.error e, Except.error f =>
      if h : e = f then Decidable.isTrue (congrArg Except.error h)
      else Decidable.isFalse (fun hc => h (by cases hc; rfl))
  | Except.ok (), Except.error _ => Decidable.isFalse (fun hc => nomatch hc)
  | Except.error _, Except.ok () => Decidable.isFalse (fun hc => nomatch hc)

namespace Core

/-- HexCoordinate: cube coordinates on the hexagonal grid (package core). -/
structure HexCoordinate where
  Q : Int
  R : Int
  S : Int
deriving DecidableEq, Repr

/-- NewHexCoordinate: constructor deriving S = -Q - R (package core). -/
def NewHexCoordinate (q r : Int) : HexCoordinate :=
  ⟨q, r, -q - r⟩

/-- The int64 abs helper of package core. -/
def abs64 (x : Int) : Int :=
  if x < 0 then -x else x

/-- HexCoordinate.Distance from package core. -/
def Distance (h other : HexCoordinate) : Int :=
  (abs64 (h.Q - other.Q) + abs64 (h.R - other.R) + abs64 (h.S - other.S)) / 2

/-- HexCoordinate.Neighbors from package core: the loop over the six fixed
direction offsets is unrolled; the listed order is the array order
East, NorthEast, NorthWest, West, SouthWest, SouthEast. -/
def Neighbors (h : HexCoordinate) : List HexCoordinate :=
  [ NewHexCoordinate (h.Q + 1) h.R,        -- East (1, 0)
    NewHexCoordinate (h.Q + 1) (h.R - 1),  -- NorthEast (1, -1)
    NewHexCoordinate h.Q (h.R - 1),        -- NorthWest (0, -1)
    NewHexCoordinate (h.Q - 1) h.R,        -- West (-1, 0)
    NewHexCoordinate (h.Q - 1) (h.R + 1),  -- SouthWest (-1, 1)
    NewHexCoordinate h.Q (h.R + 1) ]       -- SouthEast (0, 1)

/-- HexaProof from package core.  Byte slices are List Nat; the sha256
hash cache ProofHash is a Hash with 0 as the zero value. -/
structure HexaProof where
  NeighborSignatures : List (List Nat)
  StateProof : List Nat
  MeshProof : List Nat
  Timestamp : Nat
  ValidatorSet : List (List Nat)
  ProofHash : Hash
deriving DecidableEq, Repr

/-- The zero value of HexaProof (all six signature slots empty). -/
def emptyHexaProof : HexaProof :=
  ⟨[[], [], [], [], [], []], [], [], 0, [], 0⟩

/-- Big-endian 8-byte encoding of a uint64 (binary.BigEndian.PutUint64). -/
def beBytes8 (n : Nat) : List Nat :=
  [ n / 72057594037927936 % 256, n / 281474976710656 % 256,
    n / 1099511627776 % 256, n / 4294967296 % 256,
    n / 16777216 % 256, n / 65536 % 256, n / 256 % 256, n % 256 ]

/-- The byte stream fed to the sha256 hasher by HexaProof.Hash, in source
order: all six neighbor signatures, the state proof, the mesh proof, the
big-endian timestamp, then every validator address. -/
def encodeHexaProof (hp : HexaProof) : List Nat :=
  hp.NeighborSignatures.flatten ++ hp.StateProof ++ hp.MeshProof ++
    beBytes8 hp.Timestamp ++ hp.ValidatorSet.flatten

/-- HexaProof.Hash from package core, with the sha256 service abstracted
as hf.  Mutation of the receiver is made explicit: the result pairs the
updated proof with the returned hash.  If the cached ProofHash is
non-zero it is returned unchanged; otherwise the hash of all content
fields is computed, stored in ProofHash and returned. -/
def hexaProofHash (hf : List Nat → Hash) (hp : HexaProof) : HexaProof × Hash :=
  if hp.ProofHash ≠ 0 then (hp, hp.ProofHash)
  else
    let h := hf (encodeHexaProof hp)
    ({ hp with ProofHash := h }, h)

/-- HexHeader from package core.  Fields not consulted by any embedded
validation function (coinbase, bloom, difficulty, gas fields, extra data,
mix digest, nonce, EIP fields) are omitted. -/
structure HexHeader where
  ParentHashes : List Hash
  NeighborCount : Nat
  HexPosition : HexCoordinate
  MeshRoot : Hash
  HexProof : HexaProof
  Root : Hash
  Number : Nat
  Time : Nat
deriving DecidableEq, Repr

/-- HexBlock from package core, reduced to the header: the embedded
validators under study consult no body data. -/
structure HexBlock where
  header : HexHeader
deriving DecidableEq, Repr

/-- HexGenesisBlock header from package core (time.Now passed as t):
no parents, zero neighbors, origin position, zero-value proof. -/
def hexGenesisHeader (t : Nat) : HexHeader :=
  ⟨[0, 0, 0, 0, 0, 0], 0, NewHexCoordinate 0 0, 0, emptyHexaProof, 0, 0, t⟩

end Core

/-- types.Header: standard Ethereum header, reduced to the fields the
embedded consensus code reads. -/
structure EthHeader where
  ParentHash : Hash
  Root : Hash
  Number : Nat
  Time : Nat
deriving DecidableEq, Repr

/-- consensus.ChainHeaderReader: lookup of a header by hash. -/
structure ChainReader where
  getHeaderByHash : Hash → Option EthHeader

namespace Consensus

open Core

/-- HexaProofConfig (pkg/consensus); duration and string fields are
omitted: the embedded validators read only the two neighbor bounds. -/
structure HexaProofConfig where
  MaxNeighbors : Nat
  MinNeighbors : Nat
deriving DecidableEq, Repr

/-- DefaultHexaProofConfig: MaxNeighbors 6, MinNeighbors 3. -/
def DefaultHexaProofConfig : HexaProofConfig :=
  ⟨6, 3⟩

/-- convertToHexHeader (pkg/consensus): copies the standard fields, puts
the single parent hash into slot 0, fixes NeighborCount to 1, the
position to the origin and the mesh root to the state root; the proof is
the zero value. -/
def convertToHexHeader (h : EthHeader) : HexHeader :=
  ⟨[h.ParentHash, 0, 0, 0, 0, 0], 1, NewHexCoordinate 0 0,
    h.Root, emptyHexaProof, h.Root, h.Number, h.Time⟩

/-- validateBasicStructure (pkg/consensus). -/
def validateBasicStructure (h : HexHeader) : Except HexError Unit :=
  if 6 < h.NeighborCount then
    Except.error (HexError.tooManyNeighborsStruct h.NeighborCount)
  else
    let nonZeroParents := h.ParentHashes.countP (fun ph => ph != 0)
    if nonZeroParents ≠ h.NeighborCount then
      Except.error (HexError.neighborCountMismatch h.NeighborCount nonZeroParents)
    else if h.Number = 0 ∧ h.NeighborCount ≠ 0 then
      Except.error HexError.genesisNonzeroNeighbors
    else if 0 < h.Number ∧ h.NeighborCount = 0 then
      Except.error HexError.nonGenesisZeroNeighbors
    else Except.ok ()

/-- The parent loop of validateParents: skip empty slots, require each
parent to resolve, to have a strictly smaller number, and to be at most
10 blocks older. -/
def checkParents (chain : ChainReader) (num : Nat) : List Hash → Except HexError Unit
  | [] => Except.ok ()
  | ph :: rest =>
    if ph = 0 then checkParents chain num rest
    else
      match chain.getHeaderByHash ph with
      | none => Except.error (HexError.unknownParent ph)
      | some p =>
        if num ≤ p.Number then
          Except.error (HexError.invalidParentNumber p.Number num)
        else if 10 < num - p.Number then
          Except.error (HexError.parentTooOld (num - p.Number))
        else checkParents chain num rest

/-- validateParents (pkg/consensus). -/
def validateParents (chain : ChainReader) (h : HexHeader) : Except HexError Unit :=
  checkParents chain h.Number h.ParentHashes

/-- The parent loop of the consensus-engine validateMeshTopology:
self-reference and two-hop cycle detection.  selfHash is the candidate
header hash.  Parents that do not resolve are skipped. -/
def checkTopology (chain : ChainReader) (selfHash : Hash) : List Hash → Except HexError Unit
  | [] => Except.ok ()
  | ph :: rest =>
    if ph = 0 then checkTopology chain selfHash rest
    else if ph = selfHash then Except.error HexError.selfReference
    else
      match chain.getHeaderByHash ph with
      | some p =>
        if (convertToHexHeader p).ParentHashes.contains selfHash then
          Except.error HexError.circularReference
        else checkTopology chain selfHash rest
      | none => checkTopology chain selfHash rest

/-- validateMeshTopology (pkg/consensus, consensus engine).  hashH is the
keccak/RLP header-hash service.  After the cycle loop the source builds
the valid-neighbor-position map but never consults it (the positional
check is left as a comment), so the function returns nil. -/
def validateMeshTopology (hashH : HexHeader → Hash) (chain : ChainReader)
    (h : HexHeader) : Except HexError Unit :=
  checkTopology chain (hashH h) h.ParentHashes

/-- validateNeighborCount (pkg/consensus). -/
def validateNeighborCount (cfg : HexaProofConfig) (h : HexHeader) : Except HexError Unit :=
  if cfg.MaxNeighbors < h.NeighborCount then
    Except.error (HexError.tooManyNeighborsConfig h.NeighborCount cfg.MaxNeighbors)
  else if 0 < h.Number ∧ h.NeighborCount < cfg.MinNeighbors then
    Except.error (HexError.insufficientNeighbors h.NeighborCount cfg.MinNeighbors)
  else Except.ok ()

/-- The parent-timestamp loop of validateTimestamp: the running maximum
over the timestamps of the parents that resolve, started at 0;
unresolved or empty slots are skipped. -/
def maxParentTime (chain : ChainReader) : List Hash → Nat → Nat
  | [], acc => acc
  | ph :: rest, acc =>
    if ph = 0 then maxParentTime chain rest acc
    else
      match chain.getHeaderByHash ph with
      | some p =>
        if acc < p.Time then maxParentTime chain rest p.Time
        else maxParentTime chain rest acc
      | none => maxParentTime chain rest acc

/-- validateTimestamp (pkg/consensus); now is time.Now().Unix() and the
maximum future skew is the constant 15 seconds. -/
def validateTimestamp (chain : ChainReader) (now : Nat) (h : HexHeader) : Except HexError Unit :=
  let mpt := maxParentTime chain h.ParentHashes 0
  if h.Time ≤ mpt then
    Except.error (HexError.timestampNotAfterParent h.Time mpt)
  else if now + 15 < h.Time then
    Except.error (HexError.timestampTooFarFuture h.Time (now + 15))
  else Except.ok ()

/-- The proof-stage parent loop of validateHexaProof: every non-empty
parent slot must resolve through the chain reader. -/
def checkProofParents (chain : ChainReader) : List Hash → Except HexError Unit
  | [] => Except.ok ()
  | ph :: rest =>
    if ph = 0 then checkProofParents chain rest
    else
      match chain.getHeaderByHash ph with
      | none => Except.error (HexError.proofUnknownParent ph)
      | some _ => checkProofParents chain rest

/-- The number of non-empty neighbor-signature slots (len(sig) > 0). -/
def countValidSignatures (sigs : List (List Nat)) : Nat :=
  sigs.countP (fun s => s.length != 0)

/-- validateHexaProof (pkg/consensus): proof timestamp set and not before
the header time, every declared parent resolvable, and at least
NeighborCount non-empty signature slots.  The source ends in TODOs: the
cryptographic signatures, the state proof and the mesh proof are never
checked. -/
def validateHexaProof (chain : ChainReader) (h : HexHeader) : Except HexError Unit :=
  if h.HexProof.Timestamp = 0 then Except.error HexError.missingProofTimestamp
  else if h.HexProof.Timestamp < h.Time then
    Except.error HexError.proofTimestampBeforeBlock
  else
    match checkProofParents chain h.ParentHashes with
    | Except.error e => Except.error e
    | Except.ok _ =>
      if countValidSignatures h.HexProof.NeighborSignatures < h.NeighborCount then
        Except.error (HexError.insufficientSignatures
          (countValidSignatures h.HexProof.NeighborSignatures) h.NeighborCount)
      else Except.ok ()

/-- verifyHexHeader (pkg/consensus): the six stages in order, first
failure short-circuits. -/
def verifyHexHeader (cfg : HexaProofConfig) (chain : ChainReader)
    (hashH : HexHeader → Hash) (now : Nat) (h : HexHeader) : Except HexError Unit :=
  match validateBasicStructure h with
  | Except.error e => Except.error e
  | Except.ok _ =>
  match validateParents chain h with
  | Except.error e => Except.error e
  | Except.ok _ =>
  match validateMeshTopology hashH chain h with
  | Except.error e => Except.error e
  | Except.ok _ =>
  match validateNeighborCount cfg h with
  | Except.error e => Except.error e
  | Except.ok _ =>
  match validateTimestamp chain now h with
  | Except.error e => Except.error e
  | Except.ok _ => validateHexaProof chain h

/-- VerifyHeader (pkg/consensus): convert the standard header to a hex
header, then run the six-stage pipeline. -/
def VerifyHeader (cfg : HexaProofConfig) (chain : ChainReader)
    (hashH : HexHeader → Hash) (now : Nat) (h : EthHeader) : Except HexError Unit :=
  verifyHexHeader cfg chain hashH now (convertToHexHeader h)

end Consensus

/-- state.StateDB: the source treats the post-execution state store as an
opaque external service; it is modeled as the set of key-value writes the
block applied relative to the common ancestor state. -/
abbrev StateDB := List (Nat × Nat)

/-- The HexBlockChain interface (pkg/core), reduced to the methods the
embedded validator functions call. -/
structure HexChainDB where
  getHexBlock : Hash → Option Core.HexBlock
  getState : Hash → Option StateDB

namespace Core

/-- The parent loop of the HexBlockValidator validateMeshTopology
(pkg/core): a parent that resolves to a known hex block must sit at one
of the valid neighbor positions; unresolved parents are skipped. -/
def checkParentPositions (bc : HexChainDB) (valid : List HexCoordinate) :
    List Hash → Except HexError Unit
  | [] => Except.ok ()
  | ph :: rest =>
    if ph = 0 then checkParentPositions bc valid rest
    else
      match bc.getHexBlock ph with
      | some pb =>
        if pb.header.HexPosition ∈ valid then checkParentPositions bc valid rest
        else Except.error HexError.parentNotNeighbor
      | none => checkParentPositions bc valid rest

/-- validateMeshTopology (pkg/core, HexBlockValidator): every resolved
parent must be at one of the six neighbor positions of the block. -/
def validateMeshTopology (bc : HexChainDB) (b : HexBlock) : Except HexError Unit :=
  checkParentPositions bc (Neighbors b.header.HexPosition) b.header.ParentHashes

/-- The parent-state loop of ValidateStateTransitions: fetch the
post-execution state of every non-empty parent slot, failing on the
first unavailable one. -/
def collectParentStates (bc : HexChainDB) : List Hash → Except HexError (List StateDB)
  | [] => Except.ok []
  | ph :: rest =>
    if ph = 0 then collectParentStates bc rest
    else
      match bc.getState ph with
      | none => Except.error (HexError.parentStateUnavailable ph)
      | some s =>
        match collectParentStates bc rest with
        | Except.error e => Except.error e
        | Except.ok l => Except.ok (s :: l)

/-- ValidateStateTransitions (pkg/core): collects the parent states; with
no parent states a non-genesis block is an error; otherwise the first
parent state is copied as the base and the function returns nil — the
multi-parent merge and the root comparison are left as a TODO in the
source, so no further check happens. -/
def ValidateStateTransitions (bc : HexChainDB) (b : HexBlock) : Except HexError Unit :=
  match collectParentStates bc b.header.ParentHashes with
  | Except.error e => Except.error e
  | Except.ok parentStates =>
    match parentStates with
    | [] => if b.header.Number ≠ 0 then Except.error HexError.missingParentStates else Except.ok ()
    | _ :: _ => Except.ok ()

/-- ValidateHexProof (pkg/core, HexBlockValidator): proof timestamp set
and not before the header time, and at least NeighborCount non-empty
signature slots; the cryptographic signature, state-proof and mesh-proof
checks are TODOs in the source. -/
def ValidateHexProof (b : HexBlock) : Except HexError Unit :=
  if b.header.HexProof.Timestamp = 0 then Except.error HexError.missingProofTimestamp
  else if b.header.HexProof.Timestamp < b.header.Time then
    Except.error HexError.proofTimestampBeforeBlock
  else if Consensus.countValidSignatures b.header.HexProof.NeighborSignatures <
      b.header.NeighborCount then
    Except.error (HexError.insufficientSignatures
      (Consensus.countValidSignatures b.header.HexProof.NeighborSignatures)
      b.header.NeighborCount)
  else Except.ok ()

end Core

/-- Modelled from the spec: the cryptographic check of stage 6 that the
source leaves as a TODO — each present neighbor signature must verify
(through the external crypto capability, here the parameter verify)
against the candidate header hash.  Empty slots are exempt. -/
def specAllSignaturesVerify (verify : Hash → List Nat → Bool)
    (hashH : Core.HexHeader → Hash) (h : Core.HexHeader) : Bool :=
  h.HexProof.NeighborSignatures.all (fun s => s.length == 0 || verify (hashH h) s)

/-- Modelled from the spec: the deterministic parent order of the state
conflict resolver — ascending hex distance from the origin, then
ascending parent hash as a tiebreak.  A parent is a triple of its hash,
its position and its state delta relative to the common ancestor. -/
def specParentLE (a b : Hash × Core.HexCoordinate × StateDB) : Bool :=
  let da := Core.Distance (Core.NewHexCoordinate 0 0) a.2.1
  let db := Core.Distance (Core.NewHexCoordinate 0 0) b.2.1
  decide (da < db) || (decide (da = db) && decide (a.1 ≤ b.1))

/-- Insertion step of the deterministic parent ordering. -/
def specInsertParent (x : Hash × Core.HexCoordinate × StateDB) :
    List (Hash × Core.HexCoordinate × StateDB) → List (Hash × Core.HexCoordinate × StateDB)
  | [] => [x]
  | y :: ys => if specParentLE x y then x :: y :: ys else y :: specInsertParent x ys

/-- Modelled from the spec: sort the parents by the deterministic order. -/
def specSortParents (ps : List (Hash × Core.HexCoordinate × StateDB)) :
    List (Hash × Core.HexCoordinate × StateDB) :=
  ps.foldr specInsertParent []

/-- Modelled from the spec: apply one write of parent writer to the
accumulating merged state (entries are key, value, writing parent).  A
write to a fresh key is added; a write of the same value to a known key
is a no-op; a conflicting write is resolved lowest-hash-parent-wins. -/
def specApplyWrite (writer : Hash) (k v : Nat) :
    List (Nat × Nat × Hash) → List (Nat × Nat × Hash)
  | [] => [(k, v, writer)]
  | (k2, v2, w2) :: rest =>
    if k = k2 then
      if v = v2 then (k2, v2, w2) :: rest
      else if writer < w2 then (k, v, writer) :: rest
      else (k2, v2, w2) :: rest
    else (k2, v2, w2) :: specApplyWrite writer k v rest

/-- Modelled from the spec: merge the parent deltas in the deterministic
order, resolving conflicting writes lowest-hash-parent-wins.  This is
the merge that ValidateStateTransitions leaves as a TODO. -/
def specMergeParents (ps : List (Hash × Core.HexCoordinate × StateDB)) :
    List (Nat × Nat × Hash) :=
  (specSortParents ps).foldl
    (fun acc p => p.2.2.foldl (fun acc2 kv => specApplyWrite p.1 kv.1 kv.2 acc2) acc) []

/-- Modelled from the spec: a deterministic commitment (root) over a
merged key-value state, standing in for the opaque external state-root
service. -/
def specStateRoot (entries : List (Nat × Nat)) : Nat :=
  entries.foldl (fun acc kv => acc * 1000003 + kv.1 * 65599 + kv.2 + 7) 1

/-- Modelled from the spec: the root of the merged multi-parent state. -/
def specMergedRoot (ps : List (Hash × Core.HexCoordinate × StateDB)) : Nat :=
  specStateRoot ((specMergeParents ps).map (fun e => (e.1, e.2.1)))

/-! ### Helper lemmas -/

/-- On a coordinate satisfying the cube invariant, every neighbor is at
distance exactly 1. -/
lemma mem_neighbors_distance (a b : Core.HexCoordinate) (ha : a.S = -a.Q - a.R)
    (hb : b ∈ Core.Neighbors a) : Core.Distance a b = 1 := by
  simp only [Core.Neighbors, List.mem_cons, List.not_mem_nil, or_false] at hb
  rcases hb with h | h | h | h | h | h <;> subst h <;>
    simp only [Core.Distance, Core.NewHexCoordinate, Core.abs64, ha] <;>
    split_ifs <;> omega

/-- The six neighbors of any coordinate are pairwise distinct. -/
lemma neighbors_nodup (a : Core.HexCoordinate) : (Core.Neighbors a).Nodup := by
  simp [Core.Neighbors, Core.NewHexCoordinate, Core.HexCoordinate.mk.injEq]
  omega

/-- The timestamps of the parents that resolve, in slot order. -/
def resolvedParentTimes (chain : ChainReader) (l : List Hash) : List Nat :=
  l.filterMap (fun ph => if ph = 0 then none else (chain.getHeaderByHash ph).map EthHeader.Time)

/-- The running-maximum loop of validateTimestamp computes the maximum of
its accumulator and the resolved parent timestamps. -/
lemma maxParentTime_eq (chain : ChainReader) (l : List Hash) (acc : Nat) :
    Consensus.maxParentTime chain l acc =
      max acc ((resolvedParentTimes chain l).foldr max 0) := by
  induction l generalizing acc with
  | nil => simp [Consensus.maxParentTime, resolvedParentTimes]
  | cons ph rest ih =>
    by_cases h0 : ph = 0
    · simp only [Consensus.maxParentTime, resolvedParentTimes, List.filterMap_cons, h0,
        if_pos rfl, ih]
      simp [resolvedParentTimes]
    · cases hg : chain.getHeaderByHash ph with
      | none =>
        simp only [Consensus.maxParentTime, resolvedParentTimes, List.filterMap_cons, h0,
          if_neg h0, hg, Option.map_none]
        simp [ih, resolvedParentTimes]
      | some p =>
        by_cases ht : acc < p.Time <;>
          simp only [Consensus.maxParentTime, resolvedParentTimes, List.filterMap_cons,
            if_neg h0, hg, Option.map_some, ht, if_pos, if_neg, List.foldr_cons, ih] <;>
          simp [resolvedParentTimes] <;> omega

/-! ### Claims -/

/-- Claim C5 (confirmed): the structural stage rejects a header exactly
when its declared neighbor count exceeds 6, or the number of non-empty
parent-hash slots differs from the declared count, or it is genesis with
a non-zero count, or it is non-genesis with count 0. -/
theorem c5_structural_stage_iff (h : Core.HexHeader) :
    Consensus.validateBasicStructure h ≠ Except.ok () ↔
      (6 < h.NeighborCount ∨
        h.ParentHashes.countP (fun ph => ph != 0) ≠ h.NeighborCount ∨
        (h.Number = 0 ∧ h.NeighborCount ≠ 0) ∨
        (0 < h.Number ∧ h.NeighborCount = 0)) := by
  simp only [Consensus.validateBasicStructure]
  split_ifs with h1 h2 h3 h4 <;> simp_all

/-- Witness for C5: a header declaring 2 neighbors with 3 non-empty
parent slots is rejected by the structural stage. -/
theorem c5_witness :
    Consensus.validateBasicStructure
      ⟨[5, 6, 7, 0, 0, 0], 2, Core.NewHexCoordinate 0 0, 0, Core.emptyHexaProof, 0, 4, 50⟩
      ≠ Except.ok () :=
  (c5_structural_stage_iff
    ⟨[5, 6, 7, 0, 0, 0], 2, Core.NewHexCoordinate 0 0, 0, Core.emptyHexaProof, 0, 4, 50⟩).mpr
    (Or.inr (Or.inl (by decide)))

/-- Claim C4, amended (corrected): the neighbor-count stage accepts
exactly when the declared count is at most MaxNeighbors and, for
non-genesis headers, at least MinNeighbors; there is no exception for a
chain still below the finality height. -/
theorem c4_neighbor_count_policy (cfg : Consensus.HexaProofConfig) (h : Core.HexHeader) :
    Consensus.validateNeighborCount cfg h = Except.ok () ↔
      (h.NeighborCount ≤ cfg.MaxNeighbors ∧
        (0 < h.Number → cfg.MinNeighbors ≤ h.NeighborCount)) := by
  unfold Consensus.validateNeighborCount
  split_ifs with h1 h2 <;> simp_all

/-- Witness for C4: a non-genesis header with 4 neighbors under the
default configuration passes the neighbor-count stage. -/
theorem c4_witness :
    Consensus.validateNeighborCount Consensus.DefaultHexaProofConfig
      ⟨[1, 2, 3, 4, 0, 0], 4, Core.NewHexCoordinate 0 0, 0, Core.emptyHexaProof, 0, 9, 50⟩
      = Except.ok () :=
  (c4_neighbor_count_policy Consensus.DefaultHexaProofConfig
    ⟨[1, 2, 3, 4, 0, 0], 4, Core.NewHexCoordinate 0 0, 0, Core.emptyHexaProof, 0, 9, 50⟩).mpr
    ⟨by decide, fun _ => by decide⟩

/-- Counterexample for C4: a header at height 1 — a chain still below the
default finality height 3 — declaring one neighbor is rejected with
insufficient-neighbors; the claimed early-chain exception does not exist
in the code. -/
theorem c4_counterexample :
    Consensus.validateNeighborCount Consensus.DefaultHexaProofConfig
      ⟨[3, 0, 0, 0, 0, 0], 1, Core.NewHexCoordinate 1 0, 0, Core.emptyHexaProof, 0, 1, 10⟩
      = Except.error (HexError.insufficientNeighbors 1 3) ∧
    (⟨[3, 0, 0, 0, 0, 0], 1, Core.NewHexCoordinate 1 0, 0, Core.emptyHexaProof, 0, 1, 10⟩ :
      Core.HexHeader).Number < Consensus.DefaultHexaProofConfig.MinNeighbors :=
  ⟨rfl, by decide⟩

/-- Claim C8 (confirmed): the timestamp stage accepts exactly when the
header time strictly exceeds the maximum timestamp among its resolved
parents and does not exceed now plus the 15-second future skew; in
particular a header whose time equals a parent timestamp is rejected. -/
theorem c8_timestamp_stage_iff (chain : ChainReader) (now : Nat) (h : Core.HexHeader) :
    Consensus.validateTimestamp chain now h = Except.ok () ↔
      ((resolvedParentTimes chain h.ParentHashes).foldr max 0 < h.Time ∧
        h.Time ≤ now + 15) := by
  simp only [Consensus.validateTimestamp, maxParentTime_eq, Nat.zero_max]
  split_ifs with h1 h2 <;> simp_all

/-- Witness for C8: with one resolved parent at time 40, a header at
time 41 and now 41 is accepted. -/
theorem c8_witness :
    Consensus.validateTimestamp ⟨fun ph => if ph = 9 then some ⟨0, 0, 1, 40⟩ else none⟩ 41
      ⟨[9, 0, 0, 0, 0, 0], 1, Core.NewHexCoordinate 1 0, 0, Core.emptyHexaProof, 0, 2, 41⟩
      = Except.ok () :=
  (c8_timestamp_stage_iff ⟨fun ph => if ph = 9 then some ⟨0, 0, 1, 40⟩ else none⟩ 41
    ⟨[9, 0, 0, 0, 0, 0], 1, Core.NewHexCoordinate 1 0, 0, Core.emptyHexaProof, 0, 2, 41⟩).mpr
    (by constructor <;> decide)

/-- Claim C9 (confirmed): on any coordinate satisfying the cube
invariant, Neighbors returns exactly the six coordinates in the
canonical order East, NorthEast, NorthWest, West, SouthWest, SouthEast,
pairwise distinct, each at distance exactly 1; and the constructor
always satisfies Q + R + S = 0. -/
theorem c9_neighbors_canonical (a : Core.HexCoordinate) (q r : Int)
    (ha : a.S = -a.Q - a.R) :
    Core.Neighbors a =
      [Core.NewHexCoordinate (a.Q + 1) a.R, Core.NewHexCoordinate (a.Q + 1) (a.R - 1),
        Core.NewHexCoordinate a.Q (a.R - 1), Core.NewHexCoordinate (a.Q - 1) a.R,
        Core.NewHexCoordinate (a.Q - 1) (a.R + 1), Core.NewHexCoordinate a.Q (a.R + 1)] ∧
    (Core.Neighbors a).length = 6 ∧
    (Core.Neighbors a).Nodup ∧
    (∀ b ∈ Core.Neighbors a, Core.Distance a b = 1) ∧
    (Core.NewHexCoordinate q r).Q + (Core.NewHexCoordinate q r).R +
      (Core.NewHexCoordinate q r).S = 0 := by
  refine ⟨rfl, rfl, neighbors_nodup a, fun b hb => mem_neighbors_distance a b ha hb, ?_⟩
  simp only [Core.NewHexCoordinate]
  omega

/-- Witness for C9: the East neighbor of (2, 3, -5) is at distance 1. -/
theorem c9_witness :
    Core.Distance ⟨2, 3, -5⟩ (Core.NewHexCoordinate 3 3) = 1 :=
  (c9_neighbors_canonical ⟨2, 3, -5⟩ 4 5 (by decide)).2.2.2.1
    (Core.NewHexCoordinate 3 3) (by decide)

/-- The proof-stage parent loop succeeds exactly when every non-empty
slot resolves through the chain reader. -/
lemma checkProofParents_ok_iff (chain : ChainReader) (l : List Hash) :
    Consensus.checkProofParents chain l = Except.ok () ↔
      ∀ ph ∈ l, ph ≠ 0 → (chain.getHeaderByHash ph).isSome := by
  induction l with
  | nil => simp [Consensus.checkProofParents]
  | cons ph rest ih =>
    by_cases h0 : ph = 0
    · simp [Consensus.checkProofParents, h0, ih]
    · cases hg : chain.getHeaderByHash ph with
      | none => simp [Consensus.checkProofParents, h0, hg]
      | some p => simp [Consensus.checkProofParents, h0, hg, ih]

/-- Claim C1, amended (corrected): the proof stage accepts exactly when
the proof timestamp is set and not before the header time, every
non-empty parent slot resolves, and at least NeighborCount signature
slots are non-empty; present signatures are never cryptographically
verified (left as a TODO in the source). -/
theorem c1_proof_stage_iff (chain : ChainReader) (h : Core.HexHeader) :
    Consensus.validateHexaProof chain h = Except.ok () ↔
      (h.HexProof.Timestamp ≠ 0 ∧ h.Time ≤ h.HexProof.Timestamp ∧
        (∀ ph ∈ h.ParentHashes, ph ≠ 0 → (chain.getHeaderByHash ph).isSome) ∧
        h.NeighborCount ≤ Consensus.countValidSignatures h.HexProof.NeighborSignatures) := by
  have hpp := checkProofParents_ok_iff chain h.ParentHashes
  unfold Consensus.validateHexaProof
  by_cases h1 : h.HexProof.Timestamp = 0
  · rw [if_pos h1]
    exact ⟨fun hc => absurd hc (by simp), fun hr => absurd h1 hr.1⟩
  · rw [if_neg h1]
    by_cases h2 : h.HexProof.Timestamp < h.Time
    · rw [if_pos h2]
      exact ⟨fun hc => absurd hc (by simp), fun hr => absurd hr.2.1 (by omega)⟩
    · rw [if_neg h2]
      cases hcp : Consensus.checkProofParents chain h.ParentHashes with
      | error e =>
        rw [hcp] at hpp
        dsimp only
        exact ⟨fun hc => absurd hc (by simp),
          fun hr => absurd (hpp.mpr hr.2.2.1) (by simp)⟩
      | ok u =>
        cases u
        rw [hcp] at hpp
        dsimp only
        by_cases h3 : Consensus.countValidSignatures h.HexProof.NeighborSignatures <
            h.NeighborCount
        · rw [if_pos h3]
          exact ⟨fun hc => absurd hc (by simp), fun hr => absurd hr.2.2.2 (by omega)⟩
        · rw [if_neg h3]
          exact ⟨fun _ => ⟨h1, by omega, hpp.mp rfl, by omega⟩, fun _ => rfl⟩

/-- Witness for C1: a header with one resolved parent, valid proof
timestamp and one non-empty signature slot passes the proof stage. -/
theorem c1_witness :
    Consensus.validateHexaProof ⟨fun ph => if ph = 8 then some ⟨0, 0, 1, 40⟩ else none⟩
      ⟨[8, 0, 0, 0, 0, 0], 1, Core.NewHexCoordinate 1 0, 0,
        ⟨[[3], [], [], [], [], []], [], [], 90, [], 0⟩, 0, 2, 60⟩ = Except.ok () :=
  (c1_proof_stage_iff ⟨fun ph => if ph = 8 then some ⟨0, 0, 1, 40⟩ else none⟩
    ⟨[8, 0, 0, 0, 0, 0], 1, Core.NewHexCoordinate 1 0, 0,
      ⟨[[3], [], [], [], [], []], [], [], 90, [], 0⟩, 0, 2, 60⟩).mpr
    ⟨by decide, by decide, by decide, by decide⟩

/-- The chain of the C1 counterexample: hash 7 resolves. -/
def chainC1 : ChainReader := ⟨fun ph => if ph = 7 then some ⟨0, 0, 1, 40⟩ else none⟩

/-- The header of the C1 counterexample: one declared neighbor, one
non-empty signature slot holding an arbitrary byte string. -/
def hdrC1 : Core.HexHeader :=
  ⟨[7, 0, 0, 0, 0, 0], 1, Core.NewHexCoordinate 1 0, 0,
    ⟨[[1], [], [], [], [], []], [], [], 100, [], 0⟩, 0, 2, 50⟩

/-- Counterexample for C1: both proof validators accept this header even
though its present signature fails cryptographic verification under the
crypto capability that rejects every signature — the code never calls
any verifier, so acceptance cannot depend on signature validity. -/
theorem c1_counterexample :
    Consensus.validateHexaProof chainC1 hdrC1 = Except.ok () ∧
    Core.ValidateHexProof ⟨hdrC1⟩ = Except.ok () ∧
    specAllSignaturesVerify (fun _ _ => false) (fun _ => 99) hdrC1 = false :=
  ⟨rfl, rfl, rfl⟩

/-- If every non-empty parent-state slot resolves, the collection loop
succeeds and returns the empty list exactly when every slot is empty. -/
lemma collectParentStates_of_resolving (bc : HexChainDB) (l : List Hash)
    (hres : ∀ ph ∈ l, ph ≠ 0 → (bc.getState ph).isSome) :
    ∃ s, Core.collectParentStates bc l = Except.ok s ∧ (s = [] ↔ ∀ ph ∈ l, ph = 0) := by
  induction l with
  | nil => exact ⟨[], rfl, by simp⟩
  | cons ph rest ih =>
    have hrest : ∀ p ∈ rest, p ≠ 0 → (bc.getState p).isSome :=
      fun p hp => hres p (List.mem_cons_of_mem ph hp)
    obtain ⟨s, hs, hiff⟩ := ih hrest
    by_cases h0 : ph = 0
    · refine ⟨s, ?_, ?_⟩
      · simp [Core.collectParentStates, h0, hs]
      · simp [hiff, h0]
    · have hsome := hres ph (List.mem_cons_self ph rest) h0
      cases hg : bc.getState ph with
      | none => rw [hg] at hsome; cases hsome
      | some st =>
        refine ⟨st :: s, ?_, ?_⟩
        · simp [Core.collectParentStates, h0, hg, hs]
        · simp [h0]

/-- If some non-empty parent-state slot fails to resolve, the collection
loop fails. -/
lemma collectParentStates_fail (bc : HexChainDB) (l : List Hash)
    (hfail : ¬ ∀ ph ∈ l, ph ≠ 0 → (bc.getState ph).isSome) :
    ∃ e, Core.collectParentStates bc l = Except.error e := by
  induction l with
  | nil => simp at hfail
  | cons ph rest ih =>
    by_cases h0 : ph = 0
    · have : ¬ ∀ p ∈ rest, p ≠ 0 → (bc.getState p).isSome := by
        intro hall
        exact hfail (by
          intro p hp hpne
          rcases List.mem_cons.mp hp with rfl | hmem
          · exact absurd h0 hpne
          · exact hall p hmem hpne)
      obtain ⟨e, he⟩ := ih this
      exact ⟨e, by simp [Core.collectParentStates, h0, he]⟩
    · cases hg : bc.getState ph with
      | none =>
        exact ⟨HexError.parentStateUnavailable ph, by simp [Core.collectParentStates, h0, hg]⟩
      | some st =>
        have : ¬ ∀ p ∈ rest, p ≠ 0 → (bc.getState p).isSome := by
          intro hall
          exact hfail (by
            intro p hp hpne
            rcases List.mem_cons.mp hp with rfl | hmem
            · simp [hg]
            · exact hall p hmem hpne)
        obtain ⟨e, he⟩ := ih this
        exact ⟨e, by simp [Core.collectParentStates, h0, hg, he]⟩

/-- Claim C2, amended (corrected): state-transition validation accepts
exactly when every non-empty parent slot has a fetchable state and a
block with no parent states is genesis; no state merge is computed and
the declared state root is never compared, so a merged-root mismatch is
not detected (merging is a TODO in the source). -/
theorem c2_state_transition_iff (bc : HexChainDB) (b : Core.HexBlock) :
    Core.ValidateStateTransitions bc b = Except.ok () ↔
      ((∀ ph ∈ b.header.ParentHashes, ph ≠ 0 → (bc.getState ph).isSome) ∧
        ((∀ ph ∈ b.header.ParentHashes, ph = 0) → b.header.Number = 0)) := by
  by_cases hres : ∀ ph ∈ b.header.ParentHashes, ph ≠ 0 → (bc.getState ph).isSome
  · obtain ⟨s, hs, hiff⟩ := collectParentStates_of_resolving bc b.header.ParentHashes hres
    unfold Core.ValidateStateTransitions
    rw [hs]
    cases s with
    | nil =>
      have hz : ∀ ph ∈ b.header.ParentHashes, ph = 0 := hiff.mp rfl
      split_ifs with hn
      · exact ⟨fun hc => absurd hc (by simp), fun hr => absurd (hr.2 hz) hn⟩
      · exact ⟨fun _ => ⟨hres, fun _ => not_not.mp hn⟩, fun _ => rfl⟩
    | cons st rest =>
      have hnz : ¬ ∀ ph ∈ b.header.ParentHashes, ph = 0 := by
        intro hall
        exact absurd (hiff.mpr hall) (by simp)
      simp_all
  · obtain ⟨e, he⟩ := collectParentStates_fail bc b.header.ParentHashes hres
    unfold Core.ValidateStateTransitions
    rw [he]
    simp_all

/-- Witness for C2: a two-parent block whose parent states both resolve
is accepted. -/
theorem c2_witness :
    Core.ValidateStateTransitions
      ⟨fun _ => none, fun ph => if ph = 3 ∨ ph = 4 then some [(1, 10)] else none⟩
      ⟨⟨[3, 4, 0, 0, 0, 0], 2, Core.NewHexCoordinate 0 0, 0, Core.emptyHexaProof, 42, 1, 50⟩⟩
      = Except.ok () :=
  (c2_state_transition_iff
    ⟨fun _ => none, fun ph => if ph = 3 ∨ ph = 4 then some [(1, 10)] else none⟩
    ⟨⟨[3, 4, 0, 0, 0, 0], 2, Core.NewHexCoordinate 0 0, 0, Core.emptyHexaProof, 42, 1, 50⟩⟩).mpr
    ⟨by decide, by decide⟩

/-- The chain context of the C2 counterexample: parents 3 and 4 have
post-states writing different values to key 1. -/
def bcC2 : HexChainDB :=
  ⟨fun _ => none,
    fun ph => if ph = 3 then some [(1, 10)] else if ph = 4 then some [(1, 20)] else none⟩

/-- The block of the C2 counterexample: two parents, declared state root
999. -/
def blkC2 : Core.HexBlock :=
  ⟨⟨[3, 4, 0, 0, 0, 0], 2, Core.NewHexCoordinate 0 0, 0, Core.emptyHexaProof, 999, 1, 50⟩⟩

/-- The parents of the C2 counterexample as inputs of the spec merge:
hashes 3 and 4, adjacent positions, conflicting deltas on key 1. -/
def parentsC2 : List (Hash × Core.HexCoordinate × StateDB) :=
  [(3, Core.NewHexCoordinate 1 0, [(1, 10)]), (4, Core.NewHexCoordinate 0 1, [(1, 20)])]

/-- Counterexample for C2: the merged state root of the two conflicting
parents differs from the declared root 999, yet ValidateStateTransitions
accepts the block — the mismatch is silently accepted. -/
theorem c2_counterexample :
    Core.ValidateStateTransitions bcC2 blkC2 = Except.ok () ∧
    specMergedRoot parentsC2 ≠ blkC2.header.Root :=
  ⟨rfl, by decide⟩

/-- If the block-level topology loop succeeds, every parent that
resolves to a hex block sits at one of the valid positions. -/
lemma checkParentPositions_ok (bc : HexChainDB) (valid : List Core.HexCoordinate)
    (l : List Hash) (hok : Core.checkParentPositions bc valid l = Except.ok ()) :
    ∀ ph ∈ l, ph ≠ 0 → ∀ pb, bc.getHexBlock ph = some pb →
      pb.header.HexPosition ∈ valid := by
  induction l with
  | nil => simp
  | cons ph rest ih =>
    intro p hp hpne pb hpb
    rcases List.mem_cons.mp hp with rfl | hmem
    · rw [Core.checkParentPositions, if_neg hpne, hpb] at hok
      dsimp only at hok
      by_cases hmem2 : pb.header.HexPosition ∈ valid
      · exact hmem2
      · rw [if_neg hmem2] at hok; cases hok
    · by_cases h0 : ph = 0
      · rw [Core.checkParentPositions, if_pos h0] at hok
        exact ih hok p hmem hpne pb hpb
      · rw [Core.checkParentPositions, if_neg h0] at hok
        cases hg : bc.getHexBlock ph with
        | none =>
          rw [hg] at hok
          dsimp only at hok
          exact ih hok p hmem hpne pb hpb
        | some qb =>
          rw [hg] at hok
          dsimp only at hok
          by_cases hmem2 : qb.header.HexPosition ∈ valid
          · rw [if_pos hmem2] at hok; exact ih hok p hmem hpne pb hpb
          · rw [if_neg hmem2] at hok; cases hok

/-- Claim C3, amended (corrected): when the block-level topology
validator (HexBlockValidator.validateMeshTopology) accepts, every parent
that resolves to a known hex block sits at one of the six neighbor
positions of the candidate — so, on a candidate position satisfying the
cube invariant, every resolved parent is at hex distance exactly 1 and a
distance-2 parent is rejected.  The header-level consensus-engine
validateMeshTopology does not enforce this (see the counterexample). -/
theorem c3_block_topology_adjacency (bc : HexChainDB) (b : Core.HexBlock)
    (hok : Core.validateMeshTopology bc b = Except.ok ()) :
    (∀ ph ∈ b.header.ParentHashes, ph ≠ 0 → ∀ pb, bc.getHexBlock ph = some pb →
        pb.header.HexPosition ∈ Core.Neighbors b.header.HexPosition) ∧
    (b.header.HexPosition.S = -b.header.HexPosition.Q - b.header.HexPosition.R →
      ∀ ph ∈ b.header.ParentHashes, ph ≠ 0 → ∀ pb, bc.getHexBlock ph = some pb →
        Core.Distance b.header.HexPosition pb.header.HexPosition = 1) := by
  have hmem := checkParentPositions_ok bc (Core.Neighbors b.header.HexPosition)
    b.header.ParentHashes hok
  exact ⟨hmem, fun hS ph hp hpne pb hpb =>
    mem_neighbors_distance b.header.HexPosition pb.header.HexPosition hS
      (hmem ph hp hpne pb hpb)⟩

/-- The parent block of the C3 witness, at (1, 0), adjacent to the
origin. -/
def pbC3w : Core.HexBlock :=
  ⟨⟨[0, 0, 0, 0, 0, 0], 0, Core.NewHexCoordinate 1 0, 0, Core.emptyHexaProof, 0, 1, 40⟩⟩

/-- The hex chain of the C3 witness: parent 5 is a block at (1, 0). -/
def bcC3w : HexChainDB :=
  ⟨fun ph => if ph = 5 then some pbC3w else none, fun _ => none⟩

/-- The block of the C3 witness: at the origin with parent 5. -/
def blkC3w : Core.HexBlock :=
  ⟨⟨[5, 0, 0, 0, 0, 0], 1, Core.NewHexCoordinate 0 0, 0, Core.emptyHexaProof, 0, 2, 50⟩⟩

/-- Witness for C3: on the accepted block, the resolved parent is at
distance 1. -/
theorem c3_witness :
    Core.Distance blkC3w.header.HexPosition pbC3w.header.HexPosition = 1 :=
  (c3_block_topology_adjacency bcC3w blkC3w rfl).2 (by decide) 5 (by decide)
    (by decide) pbC3w (by decide)

/-- The engine chain of the C3 counterexample: parent 5 resolves to a
standard header with number 1. -/
def chainC3 : ChainReader := ⟨fun ph => if ph = 5 then some ⟨0, 0, 1, 40⟩ else none⟩

/-- The parent block of the C3 counterexample, at position (2, 0) — hex
distance 2 from the origin. -/
def pbC3 : Core.HexBlock :=
  ⟨⟨[0, 0, 0, 0, 0, 0], 0, Core.NewHexCoordinate 2 0, 0, Core.emptyHexaProof, 0, 1, 40⟩⟩

/-- The hex chain of the C3 counterexample: parent 5 resolves to pbC3. -/
def bcC3 : HexChainDB := ⟨fun ph => if ph = 5 then some pbC3 else none, fun _ => none⟩

/-- The candidate header of the C3 counterexample, at the origin with
parent 5. -/
def hdrC3 : Core.HexHeader :=
  ⟨[5, 0, 0, 0, 0, 0], 1, Core.NewHexCoordinate 0 0, 0, Core.emptyHexaProof, 0, 2, 50⟩

/-- Counterexample for C3: the header-level (consensus engine) topology
validator accepts a candidate whose parent resolves — both as a header
with smaller number and as a known hex block — but sits at hex distance
2 from the candidate position: positional adjacency is not enforced
there (the check is left as a comment in the source). -/
theorem c3_counterexample :
    Consensus.validateMeshTopology (fun _ => 77) chainC3 hdrC3 = Except.ok () ∧
    chainC3.getHeaderByHash 5 = some ⟨0, 0, 1, 40⟩ ∧
    bcC3.getHexBlock 5 = some pbC3 ∧
    pbC3.header.Number < hdrC3.Number ∧
    Core.Distance hdrC3.HexPosition pbC3.header.HexPosition = 2 :=
  ⟨rfl, rfl, rfl, by decide, by decide⟩

/-- The parent-existence loop trivially succeeds when every slot is
empty. -/
lemma checkParents_all_zero (chain : ChainReader) (num : Nat) (l : List Hash)
    (hz : ∀ ph ∈ l, ph = 0) : Consensus.checkParents chain num l = Except.ok () := by
  induction l with
  | nil => rfl
  | cons ph rest ih =>
    rw [Consensus.checkParents, if_pos (hz ph (List.mem_cons_self ph rest))]
    exact ih (fun p hp => hz p (List.mem_cons_of_mem ph hp))

/-- The engine topology loop trivially succeeds when every slot is
empty. -/
lemma checkTopology_all_zero (chain : ChainReader) (s : Hash) (l : List Hash)
    (hz : ∀ ph ∈ l, ph = 0) : Consensus.checkTopology chain s l = Except.ok () := by
  induction l with
  | nil => rfl
  | cons ph rest ih =>
    rw [Consensus.checkTopology, if_pos (hz ph (List.mem_cons_self ph rest))]
    exact ih (fun p hp => hz p (List.mem_cons_of_mem ph hp))

/-- With all parent slots empty there are no resolved parent times. -/
lemma resolvedParentTimes_all_zero (chain : ChainReader) (l : List Hash)
    (hz : ∀ ph ∈ l, ph = 0) : resolvedParentTimes chain l = [] := by
  induction l with
  | nil => rfl
  | cons ph rest ih =>
    simp only [resolvedParentTimes, List.filterMap_cons,
      if_pos (hz ph (List.mem_cons_self ph rest))]
    exact ih (fun p hp => hz p (List.mem_cons_of_mem ph hp))

/-- A genesis header with a non-zero neighbor count never survives the
structural stage. -/
lemma validateBasicStructure_genesis_reject (h : Core.HexHeader) (hnum : h.Number = 0)
    (hc : h.NeighborCount ≠ 0) :
    ∃ e, Consensus.validateBasicStructure h = Except.error e := by
  simp only [Consensus.validateBasicStructure]
  split_ifs with h1 h2 h3 h4
  · exact ⟨_, rfl⟩
  · exact ⟨_, rfl⟩
  · exact ⟨_, rfl⟩
  · exact ⟨_, rfl⟩
  · exact absurd ⟨hnum, hc⟩ h3

/-- Claim C6, amended (corrected): a genesis header with a non-zero
neighbor count is always rejected; a genesis header with count 0 and all
parent slots empty passes the structural, parent, topology,
neighbor-count and timestamp stages, but is accepted end-to-end only
when additionally its time is positive, within the future skew, and its
proof timestamp is set and not before the header time — the header
built by HexGenesisBlock carries the zero-value proof (timestamp 0) and
is therefore rejected at the proof stage (see the counterexample). -/
theorem c6_genesis_validation (cfg : Consensus.HexaProofConfig) (chain : ChainReader)
    (hashH : Core.HexHeader → Hash) (now : Nat) (h : Core.HexHeader)
    (hnum : h.Number = 0) :
    (h.NeighborCount ≠ 0 →
      Consensus.verifyHexHeader cfg chain hashH now h ≠ Except.ok ()) ∧
    ((∀ ph ∈ h.ParentHashes, ph = 0) → h.NeighborCount = 0 → 0 < h.Time →
      h.Time ≤ now + 15 → h.HexProof.Timestamp ≠ 0 → h.Time ≤ h.HexProof.Timestamp →
      Consensus.verifyHexHeader cfg chain hashH now h = Except.ok ()) := by
  constructor
  · intro hcnt
    obtain ⟨e, he⟩ := validateBasicStructure_genesis_reject h hnum hcnt
    unfold Consensus.verifyHexHeader
    rw [he]
    simp
  · intro hz hc ht hskew hts htsge
    have hcp : h.ParentHashes.countP (fun ph => ph != 0) = 0 :=
      List.countP_eq_zero.mpr (fun a ha => by simp [hz a ha])
    have hbs : Consensus.validateBasicStructure h = Except.ok () := by
      simp only [Consensus.validateBasicStructure]
      rw [if_neg (by omega), if_neg (by omega), if_neg (by simp [hc]), if_neg (by omega)]
    have hvp : Consensus.validateParents chain h = Except.ok () :=
      checkParents_all_zero chain h.Number h.ParentHashes hz
    have hmt : Consensus.validateMeshTopology hashH chain h = Except.ok () :=
      checkTopology_all_zero chain (hashH h) h.ParentHashes hz
    have hnc : Consensus.validateNeighborCount cfg h = Except.ok () := by
      unfold Consensus.validateNeighborCount
      rw [if_neg (by omega), if_neg (by omega)]
    have hrt : resolvedParentTimes chain h.ParentHashes = [] :=
      resolvedParentTimes_all_zero chain h.ParentHashes hz
    have hts5 : Consensus.validateTimestamp chain now h = Except.ok () := by
      simp only [Consensus.validateTimestamp, maxParentTime_eq, hrt, List.foldr_nil,
        Nat.max_self]
      rw [if_neg (by omega), if_neg (by omega)]
    have hhp : Consensus.validateHexaProof chain h = Except.ok () := by
      unfold Consensus.validateHexaProof
      rw [if_neg hts, if_neg (by omega)]
      rw [(checkProofParents_ok_iff chain h.ParentHashes).mpr
        (fun ph hp hpne => absurd (hz ph hp) hpne)]
      dsimp only
      rw [if_neg (by omega)]
    unfold Consensus.verifyHexHeader
    rw [hbs, hvp, hmt, hnc, hts5]
    dsimp only
    exact hhp

/-- The C6 witness genesis headers: one declaring a neighbor, one fully
well-formed with a set proof timestamp. -/
def hdrC6bad : Core.HexHeader :=
  ⟨[9, 0, 0, 0, 0, 0], 1, Core.NewHexCoordinate 0 0, 0, Core.emptyHexaProof, 0, 0, 5⟩

/-- The accepted C6 witness genesis header. -/
def hdrC6good : Core.HexHeader :=
  ⟨[0, 0, 0, 0, 0, 0], 0, Core.NewHexCoordinate 0 0, 0,
    ⟨[[], [], [], [], [], []], [], [], 5, [], 0⟩, 0, 0, 5⟩

/-- Witness for C6: a genesis header declaring one neighbor is rejected;
a well-formed genesis header with a set proof timestamp is accepted. -/
theorem c6_witness :
    (Consensus.verifyHexHeader Consensus.DefaultHexaProofConfig ⟨fun _ => none⟩
        (fun _ => 1) 10 hdrC6bad ≠ Except.ok ()) ∧
    (Consensus.verifyHexHeader Consensus.DefaultHexaProofConfig ⟨fun _ => none⟩
        (fun _ => 1) 10 hdrC6good = Except.ok ()) :=
  ⟨(c6_genesis_validation Consensus.DefaultHexaProofConfig ⟨fun _ => none⟩
      (fun _ => 1) 10 hdrC6bad rfl).1 (by decide),
    (c6_genesis_validation Consensus.DefaultHexaProofConfig ⟨fun _ => none⟩
      (fun _ => 1) 10 hdrC6good rfl).2 (by decide) rfl (by decide) (by decide)
      (by decide) (by decide)⟩

/-- Counterexample for C6: the header built by HexGenesisBlock (neighbor
count 0, origin position) is rejected at the proof stage because its
zero-value proof has timestamp 0, so genesis is not accepted by the full
six-stage pipeline. -/
theorem c6_counterexample :
    Consensus.verifyHexHeader Consensus.DefaultHexaProofConfig ⟨fun _ => none⟩
      (fun _ => 1) 1000 (Core.hexGenesisHeader 1000) =
      Except.error HexError.missingProofTimestamp := rfl

/-- Claim C7, amended (corrected): conversion of a standard header fixes
NeighborCount to 1, puts the single parent hash in slot 0, and fixes the
position to the origin; under the default configuration VerifyHeader
rejects every header with number > 0 — at the neighbor-count stage when
the earlier stages pass, but possibly at an earlier stage (see the
counterexample). -/
theorem c7_convert_and_default_reject (eh : EthHeader) (chain : ChainReader)
    (hashH : Core.HexHeader → Hash) (now : Nat) (hnum : 0 < eh.Number) :
    (Consensus.convertToHexHeader eh).NeighborCount = 1 ∧
    (Consensus.convertToHexHeader eh).ParentHashes = [eh.ParentHash, 0, 0, 0, 0, 0] ∧
    (Consensus.convertToHexHeader eh).HexPosition = Core.NewHexCoordinate 0 0 ∧
    Consensus.VerifyHeader Consensus.DefaultHexaProofConfig chain hashH now eh ≠
      Except.ok () := by
  refine ⟨rfl, rfl, rfl, ?_⟩
  have h4 : Consensus.validateNeighborCount Consensus.DefaultHexaProofConfig
      (Consensus.convertToHexHeader eh) =
      Except.error (HexError.insufficientNeighbors 1 3) := by
    have hcnt : (Consensus.convertToHexHeader eh).NeighborCount = 1 := rfl
    have hnum2 : (Consensus.convertToHexHeader eh).Number = eh.Number := rfl
    unfold Consensus.validateNeighborCount
    rw [hcnt, hnum2, if_neg (by decide), if_pos ⟨hnum, by decide⟩]
    rfl
  unfold Consensus.VerifyHeader Consensus.verifyHexHeader
  cases h1 : Consensus.validateBasicStructure (Consensus.convertToHexHeader eh) with
  | error e => dsimp only; simp
  | ok u =>
    cases u
    dsimp only
    cases h2 : Consensus.validateParents chain (Consensus.convertToHexHeader eh) with
    | error e => dsimp only; simp
    | ok u =>
      cases u
      dsimp only
      cases h3 : Consensus.validateMeshTopology hashH chain
          (Consensus.convertToHexHeader eh) with
      | error e => dsimp only; simp
      | ok u =>
        cases u
        dsimp only
        rw [h4]
        dsimp only
        simp

/-- Witness for C7: a standard header with number 2 is rejected by
VerifyHeader under the default configuration. -/
theorem c7_witness :
    Consensus.VerifyHeader Consensus.DefaultHexaProofConfig ⟨fun _ => none⟩
      (fun _ => 1) 60 ⟨4, 0, 2, 50⟩ ≠ Except.ok () :=
  (c7_convert_and_default_reject ⟨4, 0, 2, 50⟩ ⟨fun _ => none⟩ (fun _ => 1) 60
    (by decide)).2.2.2

/-- The C7 counterexample header: number 1 with the zero parent hash. -/
def ehC7 : EthHeader := ⟨0, 0, 1, 50⟩

/-- Counterexample for C7: this header with number > 0 is rejected at
the structural stage (declared count 1 versus 0 non-empty slots), not at
the neighbor-count stage, so the stage named by the claim is wrong in
general. -/
theorem c7_counterexample :
    Consensus.VerifyHeader Consensus.DefaultHexaProofConfig ⟨fun _ => none⟩
      (fun _ => 1) 60 ehC7 = Except.error (HexError.neighborCountMismatch 1 0) ∧
    HexError.neighborCountMismatch 1 0 ≠ HexError.insufficientNeighbors 1 3 :=
  ⟨rfl, by decide⟩

/-- The byte-stream encoding of a proof ignores the hash-cache field. -/
lemma encodeHexaProof_update (x : Core.HexaProof) (v : Hash) :
    Core.encodeHexaProof { x with ProofHash := v } = Core.encodeHexaProof x := rfl

/-- Claim C10 (confirmed): the proof hash is computed over all content
fields, memoized in ProofHash after the first computation, returned
unchanged by later calls (so two calls agree), unaffected by mutation of
the other fields while the cache is set, and recomputed over the current
fields only after an explicit reset of the cache to zero; a call that
hits the cache does not mutate the proof at all. -/
theorem c10_proofhash_memoization (hf : List Nat → Hash) (p q : Core.HexaProof) :
    ((Core.hexaProofHash hf (Core.hexaProofHash hf p).1).2 = (Core.hexaProofHash hf p).2) ∧
    (p.ProofHash = 0 → (Core.hexaProofHash hf p).2 = hf (Core.encodeHexaProof p)) ∧
    (p.ProofHash ≠ 0 → Core.hexaProofHash hf p = (p, p.ProofHash)) ∧
    (q.ProofHash = (Core.hexaProofHash hf p).1.ProofHash →
      (Core.hexaProofHash hf p).2 ≠ 0 →
      (Core.hexaProofHash hf q).2 = (Core.hexaProofHash hf p).2) ∧
    ((Core.hexaProofHash hf { q with ProofHash := 0 }).2 = hf (Core.encodeHexaProof q)) := by
  by_cases hp : p.ProofHash = 0
  · have h1 : Core.hexaProofHash hf p =
        ({ p with ProofHash := hf (Core.encodeHexaProof p) }, hf (Core.encodeHexaProof p)) := by
      simp [Core.hexaProofHash, hp]
    refine ⟨?_, fun _ => by rw [h1], fun hne => absurd hp hne, ?_, ?_⟩
    · rw [h1]
      by_cases hh : hf (Core.encodeHexaProof p) = 0
      · simp [Core.hexaProofHash, hh, encodeHexaProof_update]
      · simp [Core.hexaProofHash, hh]
    · intro hq hnz
      rw [h1] at hq hnz ⊢
      dsimp only at hq hnz ⊢
      simp [Core.hexaProofHash, hq, hnz]
    · simp [Core.hexaProofHash, encodeHexaProof_update]
  · have h1 : Core.hexaProofHash hf p = (p, p.ProofHash) := by
      unfold Core.hexaProofHash
      rw [if_pos hp]
    refine ⟨?_, fun h0 => absurd h0 hp, fun _ => h1, ?_, ?_⟩
    · simp [h1]
    · intro hq hnz
      rw [h1] at hq hnz ⊢
      dsimp only at hq hnz ⊢
      simp [Core.hexaProofHash, hq, hnz]
    · simp [Core.hexaProofHash, encodeHexaProof_update]

/-- The hash service of the C10 witness. -/
def hfC10 : List Nat → Hash := fun l => l.length + 1

/-- The C10 witness proof before its first Hash call. -/
def pC10 : Core.HexaProof := ⟨[[], [], [], [], [], []], [], [], 1, [], 0⟩

/-- The C10 witness proof after the first Hash call with every content
field mutated but the cached hash (9) kept. -/
def qC10 : Core.HexaProof := ⟨[[2], [], [], [], [], []], [5], [6], 9, [[7]], 9⟩

/-- Witness for C10: mutating every content field after the first Hash
call leaves the returned hash unchanged. -/
theorem c10_witness :
    (Core.hexaProofHash hfC10 qC10).2 = (Core.hexaProofHash hfC10 pC10).2 :=
  (c10_proofhash_memoization hfC10 pC10 qC10).2.2.2.1 (by decide) (by decide)

end HexChain
